import Mathlib

/-!
Verification of the disk scheduler (`disk_scheduler.c`).

The scheduler keeps a doubly linked queue of pending requests and a
process-global cursor `nextblock, nextdir` (line 36 of the source).
`disk_scheduler_run` picks the next request according to the mode
(FIFO / SSTF / SCAN, lines 223-269), unlinks it from the queue
(lines 272-283), performs the I/O and signals the requester.

We embed the sequential part of one loop iteration: the queue as a
`List Request` (head first), the doubly-linked unlink of the chosen node
as removal at its position, and the two unbounded search loops (SSTF and
SCAN) as fuelled recursions; `none` means the loop has not terminated
within the given fuel, and a result that is `none` for every fuel is a
non-terminating loop.
-/

/-- `struct request` (lines 20-25): kind (`read_write`: false = read,
true = write) and target block `block1`.  The data pointers play no role
in scheduling and are omitted. -/
structure Request where
  read_write : Bool
  block1 : Int
deriving DecidableEq, Repr

/-- Scheduling mode `disk_scheduler_mode_t` (FIFO / SSTF / SCAN). -/
inductive Mode where
  | FIFO | SSTF | SCAN
deriving DecidableEq, Repr

/-- The process-global cursor state `int nextblock = 0, nextdir = 1;`
(line 36).  It is a single global pair, not a per-scheduler field. -/
structure Globals where
  nextblock : Int
  nextdir : Int
deriving DecidableEq, Repr

/-- Initial value of the globals (line 36). -/
def initGlobals : Globals := ⟨0, 1⟩

/-- `struct disk_scheduler` (lines 44-48): the disk (represented by its
block count, the only fact the scheduler reads from it), the mode, and
the request queue (head-first list standing for the `head`/`tail`
doubly linked list). -/
structure Scheduler where
  nblocks : Int
  mode : Mode
  queue : List Request
deriving DecidableEq, Repr

/-- Tail append performed by `disk_scheduler_write` / `disk_scheduler_read`
(lines 114-126 and 173-185): a fresh node is linked after `tail`. -/
def enqueue (s : Scheduler) (r : Request) : Scheduler :=
  { s with queue := s.queue ++ [r] }

/-- Walk of the linked list from `head`, returning the position and value
of the first node satisfying `p` (the `curr = curr->next` walks inside
`disk_scheduler_run`).  The second argument is the index of the first
element of the remaining list. -/
def findWithIdx (p : Request → Bool) : List Request → Nat → Option (Nat × Request)
  | [], _ => none
  | x :: xs, i => if p x then some (i, x) else findWithIdx p xs (i + 1)

/-- The SSTF match test of lines 236-237: node matches when its block is
`nextblock + r` or `nextblock - r` (both sides tested on the same pass). -/
def sstfPred (c r : Int) (req : Request) : Bool :=
  decide (req.block1 = c + r ∨ req.block1 = c - r)

/-- The SSTF search loop (lines 234-246): scan the whole list at radius
`r`; on failure restart from the head with `r + 1`, except that
`if (nextdir >= nblocks-1) nextdir = 0;` (line 242) resets the radius to
0 instead of letting it reach `nblocks - 1`.  On a match at radius `r`
the globals become `(matched block, r)` (line 247 sets `nextblock`;
`nextdir` keeps its last value, the matching radius).  Fuelled: `none`
means the loop is still running after `fuel` passes. -/
def sstfAux (n c : Int) (q : List Request) : Nat → Int → Option (Nat × Globals)
  | 0, _ => none
  | fuel + 1, r =>
    match findWithIdx (sstfPred c r) q 0 with
    | some (i, req) => some (i, ⟨req.block1, r⟩)
    | none => sstfAux n c q fuel (if n - 1 ≤ r + 1 then 0 else r + 1)

/-- SSTF selection: line 235 first writes `nextdir = 0`, then the search
runs from radius 0 with `c = nextblock`. -/
def sstfPick (n : Int) (g : Globals) (q : List Request) (fuel : Nat) :
    Option (Nat × Globals) :=
  sstfAux n g.nextblock q fuel 0

/-- The SCAN search loop (lines 253-268): scan the list for a node whose
block equals `nextblock`; on failure step `nextblock += nextdir`, then
run the two boundary tests in sequence (`nextblock > nblocks-1` steps
back and sets direction `-1`; then `nextblock < 0` steps forward and
sets direction `+1` — the nested ifs below inline this sequential
composition) and rescan.  On a match the globals are left at the current
position and direction. -/
def scanAux (n : Int) (q : List Request) : Nat → Int → Int → Option (Nat × Globals)
  | 0, _, _ => none
  | fuel + 1, c, d =>
    match findWithIdx (fun req => decide (req.block1 = c)) q 0 with
    | some (i, _) => some (i, ⟨c, d⟩)
    | none =>
      if n - 1 < c + d then
        if c + d - 1 < 0 then scanAux n q fuel (c + d - 1 + 1) 1
        else scanAux n q fuel (c + d - 1) (-1)
      else
        if c + d < 0 then scanAux n q fuel (c + d + 1) 1
        else scanAux n q fuel (c + d) d

/-- SCAN selection starting from the current globals. -/
def scanPick (n : Int) (g : Globals) (q : List Request) (fuel : Nat) :
    Option (Nat × Globals) :=
  scanAux n q fuel g.nextblock g.nextdir

/-- FIFO selection (lines 227-229): `curr = s->head`, i.e. position 0 of a
non-empty queue; the globals are untouched. -/
def fifoPick (g : Globals) (q : List Request) : Option (Nat × Globals) :=
  match q with
  | [] => none
  | _ :: _ => some (0, g)

/-- The selection step of `disk_scheduler_run` (lines 223-269): dispatch
on the mode and return the position of the chosen node together with the
globals after selection. -/
def pick (s : Scheduler) (g : Globals) (fuel : Nat) : Option (Nat × Globals) :=
  match s.mode with
  | Mode.FIFO => fifoPick g s.queue
  | Mode.SSTF => sstfPick s.nblocks g s.queue fuel
  | Mode.SCAN => scanPick s.nblocks g s.queue fuel

/-- One select-and-remove iteration of `disk_scheduler_run`: pick a node,
then unlink it (lines 272-283; on a well-formed doubly linked list the
four pointer updates remove exactly the node `curr`, i.e. the element at
its position).  Returns the serviced request, the scheduler with that
node removed, and the globals after selection. -/
def runStep (s : Scheduler) (g : Globals) (fuel : Nat) :
    Option (Request × Scheduler × Globals) :=
  match pick s g fuel with
  | none => none
  | some (i, g') =>
    match s.queue.get? i with
    | none => none
    | some r => some (r, { s with queue := s.queue.eraseIdx i }, g')

/-- Repeated select-and-remove: the list of serviced blocks over `k`
iterations (stops early if a selection loop does not terminate). -/
def selTrace (s : Scheduler) (g : Globals) (fuel : Nat) : Nat → List Int
  | 0 => []
  | k + 1 =>
    match runStep s g fuel with
    | none => []
    | some (r, s', g') => r.block1 :: selTrace s' g' fuel k

/-- `disk_scheduler_create` (lines 57-73) with the two fallible calls as
oracles: `allocOk` is whether `malloc` succeeds (line 59), `diskOk`
whether `disk_create` succeeds (line 62).  The second component records
whether the already-allocated scheduler struct was released with `free`
before returning failure (line 64). -/
def disk_scheduler_create (allocOk diskOk : Bool) (nblocks : Int) (mode : Mode) :
    Option Scheduler × Bool :=
  if allocOk = false then (none, false)
  else if diskOk = false then (none, true)
  else (some ⟨nblocks, mode, []⟩, false)

/-- C1: In SSTF mode, selection searches outward from the cursor at
increasing radius and picks the pending request with the smallest
absolute distance from the current cursor block, then sets the cursor to
the selected block: with the cursor at block 10 and exactly the requests
for blocks {3, 12, 9} pending (in every enqueue order), repeated
selection yields blocks 9, then 12, then 3, and after each selection the
global `nextblock` equals the selected block. -/
theorem sstf_selection_trace :
    runStep ⟨16, Mode.SSTF, [⟨false, 3⟩, ⟨false, 12⟩, ⟨false, 9⟩]⟩ ⟨10, 1⟩ 50 =
      some (⟨false, 9⟩, ⟨16, Mode.SSTF, [⟨false, 3⟩, ⟨false, 12⟩]⟩, ⟨9, 1⟩) ∧
    runStep ⟨16, Mode.SSTF, [⟨false, 3⟩, ⟨false, 12⟩]⟩ ⟨9, 1⟩ 50 =
      some (⟨false, 12⟩, ⟨16, Mode.SSTF, [⟨false, 3⟩]⟩, ⟨12, 3⟩) ∧
    runStep ⟨16, Mode.SSTF, [⟨false, 3⟩]⟩ ⟨12, 3⟩ 50 =
      some (⟨false, 3⟩, ⟨16, Mode.SSTF, []⟩, ⟨3, 9⟩) ∧
    selTrace ⟨16, Mode.SSTF, [⟨false, 3⟩, ⟨false, 12⟩, ⟨false, 9⟩]⟩ ⟨10, 1⟩ 50 3 = [9, 12, 3] ∧
    selTrace ⟨16, Mode.SSTF, [⟨false, 3⟩, ⟨false, 9⟩, ⟨false, 12⟩]⟩ ⟨10, 1⟩ 50 3 = [9, 12, 3] ∧
    selTrace ⟨16, Mode.SSTF, [⟨false, 12⟩, ⟨false, 3⟩, ⟨false, 9⟩]⟩ ⟨10, 1⟩ 50 3 = [9, 12, 3] ∧
    selTrace ⟨16, Mode.SSTF, [⟨false, 12⟩, ⟨false, 9⟩, ⟨false, 3⟩]⟩ ⟨10, 1⟩ 50 3 = [9, 12, 3] ∧
    selTrace ⟨16, Mode.SSTF, [⟨false, 9⟩, ⟨false, 3⟩, ⟨false, 12⟩]⟩ ⟨10, 1⟩ 50 3 = [9, 12, 3] ∧
    selTrace ⟨16, Mode.SSTF, [⟨false, 9⟩, ⟨false, 12⟩, ⟨false, 3⟩]⟩ ⟨10, 1⟩ 50 3 = [9, 12, 3] := by
  decide

/-- C5: In SCAN mode the cursor sweeps in its direction, selects the
pending request whose block the sweep reaches, reverses at block
`nblocks - 1`, and persists across calls: with 16 blocks, cursor at
block 14, direction +1 and pending blocks {0, 15}, the first selection
returns block 15 (cursor 15, still moving right) and the second,
continuing from there, reverses at the top and returns block 0. -/
theorem scan_sweep_trace :
    runStep ⟨16, Mode.SCAN, [⟨false, 0⟩, ⟨false, 15⟩]⟩ ⟨14, 1⟩ 64 =
      some (⟨false, 15⟩, ⟨16, Mode.SCAN, [⟨false, 0⟩]⟩, ⟨15, 1⟩) ∧
    runStep ⟨16, Mode.SCAN, [⟨false, 0⟩]⟩ ⟨15, 1⟩ 64 =
      some (⟨false, 0⟩, ⟨16, Mode.SCAN, []⟩, ⟨0, -1⟩) := by
  decide

/-- C6: In FIFO mode selection always returns the head of the queue and
leaves the globals untouched, and since enqueue appends at the tail,
requests are serviced in arrival order: enqueuing requests for blocks
[5, 2, 8] in that order onto an empty queue yields service order
[5, 2, 8]. -/
theorem fifo_order :
    (∀ (n : Int) (r : Request) (q : List Request) (g : Globals) (fuel : Nat),
      runStep ⟨n, Mode.FIFO, r :: q⟩ g fuel = some (r, ⟨n, Mode.FIFO, q⟩, g)) ∧
    selTrace (enqueue (enqueue (enqueue ⟨16, Mode.FIFO, []⟩ ⟨true, 5⟩) ⟨true, 2⟩) ⟨true, 8⟩)
      initGlobals 1 3 = [5, 2, 8] :=
  ⟨fun _ _ _ _ _ => rfl, by decide⟩

/-- C3 counterexample: with the cursor at block 10 and the two nearest
pending requests at radius 1 on opposite sides (blocks 9 and 11), the
selected block depends on enqueue order — with 9 enqueued first the
`-r` candidate 9 (= 10 - 1, not 10 + 1) is selected, refuting the claim
that the `+r` candidate wins regardless of enqueue order. -/
theorem sstf_tie_break_counterexample :
    sstfPick 16 ⟨10, 1⟩ [⟨false, 9⟩, ⟨false, 11⟩] 50 = some (0, ⟨9, 1⟩) ∧
    sstfPick 16 ⟨10, 1⟩ [⟨false, 11⟩, ⟨false, 9⟩] 50 = some (0, ⟨11, 1⟩) ∧
    (9 : Int) = 10 - 1 ∧ (9 : Int) ≠ 10 + 1 := by
  decide

/-- C4 counterexample: the cursor is one process-global pair, so running
a selection on one SCAN scheduler does not leave the cursor another
scheduler reads unchanged.  Scheduler B (pending blocks {0, 14}) run
from the initial globals selects block 0 first; after scheduler A
(pending block {15}) runs one selection the globals are ⟨15, 1⟩ ≠
initGlobals, and B started from them selects 14 first — not the sequence
B produces alone. -/
theorem cursor_isolation_counterexample :
    runStep ⟨16, Mode.SCAN, [⟨true, 0⟩, ⟨true, 14⟩]⟩ initGlobals 64 =
      some (⟨true, 0⟩, ⟨16, Mode.SCAN, [⟨true, 14⟩]⟩, ⟨0, 1⟩) ∧
    runStep ⟨16, Mode.SCAN, [⟨false, 15⟩]⟩ initGlobals 64 =
      some (⟨false, 15⟩, ⟨16, Mode.SCAN, []⟩, ⟨15, 1⟩) ∧
    runStep ⟨16, Mode.SCAN, [⟨true, 0⟩, ⟨true, 14⟩]⟩ ⟨15, 1⟩ 64 =
      some (⟨true, 14⟩, ⟨16, Mode.SCAN, [⟨true, 0⟩]⟩, ⟨14, -1⟩) ∧
    ((⟨15, 1⟩ : Globals) ≠ initGlobals) ∧ ((14 : Int) ≠ 0) := by
  decide

/-- C4 amended: the scheduler cursor is process-global shared state — a
selection on one scheduler instance updates the single `nextblock`/
`nextdir` pair that every other instance reads, so two SCAN instances
driven with disjoint request sets can produce selection sequences
different from running alone: scheduler B's two selections give [0, 14]
from the initial globals but [14, 0] from the globals scheduler A's
selection leaves behind. -/
theorem cursor_shared_global :
    (runStep ⟨16, Mode.SCAN, [⟨false, 15⟩]⟩ initGlobals 64).map (fun x => x.2.2) =
      some ⟨15, 1⟩ ∧
    selTrace ⟨16, Mode.SCAN, [⟨true, 0⟩, ⟨true, 14⟩]⟩ ⟨15, 1⟩ 64 2 = [14, 0] ∧
    selTrace ⟨16, Mode.SCAN, [⟨true, 0⟩, ⟨true, 14⟩]⟩ initGlobals 64 2 = [0, 14] ∧
    ([14, 0] : List Int) ≠ [0, 14] := by
  decide

/-- Helper: if no radius in `[0, n-2]` ever matches, the SSTF search loop
runs forever — the radius reset at line 242 keeps the radius inside
`[0, n-2]`, so radius `n-1` is never tested and every amount of fuel is
exhausted. -/
theorem sstfAux_gap (n c : Int) (q : List Request) (hn : 2 ≤ n)
    (h : ∀ r : Int, 0 ≤ r → r ≤ n - 2 → findWithIdx (sstfPred c r) q 0 = none) :
    ∀ (fuel : Nat) (r : Int), 0 ≤ r → r ≤ n - 2 → sstfAux n c q fuel r = none := by
  intro fuel
  induction fuel with
  | zero => intro r _ _; rfl
  | succ f ih =>
    intro r hr0 hr1
    have hfind := h r hr0 hr1
    simp only [sstfAux]
    rw [hfind]
    by_cases hc : n - 1 ≤ r + 1
    · rw [if_pos hc]
      exact ih 0 le_rfl (by omega)
    · rw [if_neg hc]
      exact ih (r + 1) (by omega) (by omega)

/-- C2: refuted by the code — the radius search is NOT usable up to
`blockCount - 1`: line 242 resets the radius to 0 once it would reach
`nblocks - 1`, so with 16 blocks, the cursor at block 0 and the single
pending (in-range) request for block 15 = blockCount - 1, the SSTF
selection loop never terminates: it returns nothing for every amount of
fuel. -/
theorem sstf_radius_bound_divergence :
    ∀ fuel : Nat, sstfPick 16 ⟨0, 1⟩ [⟨false, 15⟩] fuel = none := by
  intro fuel
  have h : ∀ r : Int, 0 ≤ r → r ≤ 16 - 2 →
      findWithIdx (sstfPred 0 r) [⟨false, 15⟩] 0 = none := by
    intro r hr0 hr1
    have hp : sstfPred 0 r ⟨false, 15⟩ = false := by
      simp only [sstfPred, decide_eq_false_iff_not]
      omega
    simp [findWithIdx, hp]
  exact sstfAux_gap 16 0 [⟨false, 15⟩] (by norm_num) h fuel 0 le_rfl (by norm_num)

/-- C7: refuted by the code for SSTF mode — select-and-remove does not
return an element for every non-empty queue: with 5 blocks, the cursor
at block 0 and the non-empty queue holding the single request for block
4 = blockCount - 1, the selection loop never terminates, so no element
is ever returned or unlinked. -/
theorem select_remove_divergence :
    ∀ fuel : Nat, runStep ⟨5, Mode.SSTF, [⟨true, 4⟩]⟩ ⟨0, 1⟩ fuel = none := by
  intro fuel
  have hp : pick ⟨5, Mode.SSTF, [⟨true, 4⟩]⟩ ⟨0, 1⟩ fuel = none := by
    have h : ∀ r : Int, 0 ≤ r → r ≤ 5 - 2 →
        findWithIdx (sstfPred 0 r) [⟨true, 4⟩] 0 = none := by
      intro r hr0 hr1
      have hq : sstfPred 0 r ⟨true, 4⟩ = false := by
        simp only [sstfPred, decide_eq_false_iff_not]
        omega
      simp [findWithIdx, hq]
    exact sstfAux_gap 5 0 [⟨true, 4⟩] (by norm_num) h fuel 0 le_rfl (by norm_num)
  simp [runStep, hp]

/-- Helper: the SSTF search started at radius `r` reaches the target
radius `R` and returns the first queue element matching at radius `R`,
provided no radius strictly between `r` and `R` matches, `R ≤ n - 2`
(below the reset of line 242) and there is enough fuel. -/
theorem sstfAux_reach (n c R : Int) (q : List Request) (i : Nat) (req : Request)
    (hR0 : 0 ≤ R) (hRn : R ≤ n - 2)
    (hfind : findWithIdx (sstfPred c R) q 0 = some (i, req)) :
    ∀ (fuel : Nat) (r : Int), 0 ≤ r → r ≤ R →
      (∀ r' : Int, r ≤ r' → r' < R → findWithIdx (sstfPred c r') q 0 = none) →
      R - r < (fuel : Int) →
      sstfAux n c q fuel r = some (i, ⟨req.block1, R⟩) := by
  intro fuel
  induction fuel with
  | zero =>
    intro r hr0 hrR _ hfuel
    exact absurd hfuel (by push_cast; omega)
  | succ f ih =>
    intro r hr0 hrR hnone hfuel
    by_cases hrEq : r = R
    · subst hrEq
      simp only [sstfAux]
      rw [hfind]
    · have hlt : r < R := lt_of_le_of_ne hrR hrEq
      have hn := hnone r le_rfl hlt
      simp only [sstfAux]
      rw [hn]
      have hcond : ¬ (n - 1 ≤ r + 1) := by omega
      rw [if_neg hcond]
      refine ih (r + 1) (by omega) (by omega) ?_ (by push_cast at hfuel ⊢; omega)
      intro r' h1 h2
      exact hnone r' (by omega) h2

/-- C3 amended: at a given radius `r`, the one-pass scan of lines 236-237
tests `+r` and `-r` together on each node, so when the two nearest
pending requests sit at radius `r` on opposite sides of the cursor the
one occurring earliest in the queue (the one enqueued first) is
selected — the `+r` candidate wins only when it precedes the `-r`
candidate.  Formally: if no pending request matches any radius below
`r`, the element selected by SSTF is exactly the first queue element
matching at radius `r`, whichever side of the cursor it lies on. -/
theorem sstf_tie_break_queue_order (n c r d : Int) (q : List Request)
    (i : Nat) (req : Request) (fuel : Nat)
    (hr0 : 0 ≤ r) (hrn : r ≤ n - 2)
    (hnone : ∀ r' : Int, 0 ≤ r' → r' < r → findWithIdx (sstfPred c r') q 0 = none)
    (hfind : findWithIdx (sstfPred c r) q 0 = some (i, req))
    (hfuel : r < (fuel : Int)) :
    sstfPick n ⟨c, d⟩ q fuel = some (i, ⟨req.block1, r⟩) :=
  sstfAux_reach n c r q i req hr0 hrn hfind fuel 0 le_rfl hr0
    (fun r' h1 h2 => hnone r' h1 h2) (by omega)

/-- Witness for the amended C3 theorem: cursor at block 10, queue
enqueued as [block 9, block 11] — both candidates at radius 1, and the
selection returns the earlier-enqueued block 9 at position 0. -/
theorem sstf_tie_break_queue_order_witness :
    sstfPick 16 ⟨10, 5⟩ [⟨false, 9⟩, ⟨false, 11⟩] 50 = some (0, ⟨9, 1⟩) := by
  have h := sstf_tie_break_queue_order 16 10 1 5 [⟨false, 9⟩, ⟨false, 11⟩]
    0 ⟨false, 9⟩ 50 (by norm_num) (by norm_num)
    (by
      intro r' h1 h2
      have hr : r' = 0 := by omega
      subst hr
      decide)
    (by decide) (by norm_num)
  exact h

/-- Helper: the SCAN sweep keeps its position inside `[0, n-1]` and its
direction in `{+1, -1}`: whenever it is started from such a state and
terminates, the final globals are again such a state. -/
theorem scanAux_range (n : Int) (q : List Request) (hn : 1 ≤ n) :
    ∀ (fuel : Nat) (c d : Int) (i : Nat) (g' : Globals),
      0 ≤ c → c ≤ n - 1 → (d = 1 ∨ d = -1) →
      scanAux n q fuel c d = some (i, g') →
      (0 ≤ g'.nextblock ∧ g'.nextblock ≤ n - 1) ∧
        (g'.nextdir = 1 ∨ g'.nextdir = -1) := by
  intro fuel
  induction fuel with
  | zero =>
    intro c d i g' _ _ _ h
    exact absurd h (by simp [scanAux])
  | succ f ih =>
    intro c d i g' hc0 hc1 hd h
    simp only [scanAux] at h
    cases hfind : findWithIdx (fun req => decide (req.block1 = c)) q 0 with
    | some p =>
      rw [hfind] at h
      obtain ⟨pi, pr⟩ := p
      simp only [Option.some.injEq, Prod.mk.injEq] at h
      obtain ⟨-, hg⟩ := h
      rw [← hg]
      exact ⟨⟨hc0, hc1⟩, hd⟩
    | none =>
      rw [hfind] at h
      rcases hd with hd | hd
      · subst hd
        split_ifs at h with h1 h2 h3
        · exact absurd h1 (by omega)
        · exact ih (c + 1 - 1) (-1) i g' (by omega) (by omega) (Or.inr rfl) h
        · exact absurd h3 (by omega)
        · exact ih (c + 1) 1 i g' (by omega) (by omega) (Or.inl rfl) h
      · subst hd
        split_ifs at h with h1 h2 h3
        · exact absurd h1 (by omega)
        · exact absurd h1 (by omega)
        · exact ih (c + -1 + 1) 1 i g' (by omega) (by omega) (Or.inl rfl) h
        · exact ih (c + -1) (-1) i g' (by omega) (by omega) (Or.inr rfl) h

/-- C10: the SCAN cursor stays within the valid block range.  For every
scheduler whose device has at least one block, if the global cursor
satisfies the invariant (block in `[0, nblocks - 1]`, direction +1 or
-1) before a SCAN selection — as the initial state `initGlobals = ⟨0, 1⟩`
does — then after any terminating SCAN selection it satisfies it again,
so every cursor state reachable from the initial state by SCAN
selections lies in range. -/
theorem scan_cursor_invariant (n : Int) (q : List Request) (g : Globals)
    (fuel : Nat) (i : Nat) (g' : Globals)
    (hn : 1 ≤ n)
    (hc0 : 0 ≤ g.nextblock) (hc1 : g.nextblock ≤ n - 1)
    (hd : g.nextdir = 1 ∨ g.nextdir = -1)
    (h : scanPick n g q fuel = some (i, g')) :
    (0 ≤ g'.nextblock ∧ g'.nextblock ≤ n - 1) ∧
      (g'.nextdir = 1 ∨ g'.nextdir = -1) :=
  scanAux_range n q hn fuel g.nextblock g.nextdir i g' hc0 hc1 hd h

/-- Witness for C10: 16 blocks, cursor at block 14 moving right, pending
block 15 — the selection terminates with cursor ⟨15, 1⟩, which is again
in range. -/
theorem scan_cursor_invariant_witness :
    (0 ≤ (⟨15, 1⟩ : Globals).nextblock ∧ (⟨15, 1⟩ : Globals).nextblock ≤ 16 - 1) ∧
      ((⟨15, 1⟩ : Globals).nextdir = 1 ∨ (⟨15, 1⟩ : Globals).nextdir = -1) :=
  scan_cursor_invariant 16 [⟨false, 15⟩] ⟨14, 1⟩ 40 0 ⟨15, 1⟩
    (by norm_num) (by norm_num) (by norm_num) (Or.inl rfl) (by decide)

/-- C8: `disk_scheduler_create` fails (returns the null handle) exactly
when the scheduler allocation fails or the device creation fails; when
the device cannot be created the already-allocated scheduler struct is
freed before returning failure; on success the scheduler carries the
requested mode and an empty queue (null head and tail) — and the mode is
never changed afterwards, neither by enqueue nor by a select-and-remove
step. -/
theorem create_spec :
    (∀ (a d : Bool) (n : Int) (m : Mode),
      (disk_scheduler_create a d n m).1 = none ↔ (a = false ∨ d = false)) ∧
    (∀ (n : Int) (m : Mode), disk_scheduler_create true false n m = (none, true)) ∧
    (∀ (n : Int) (m : Mode),
      disk_scheduler_create true true n m = (some ⟨n, m, []⟩, false)) ∧
    (∀ (s : Scheduler) (r : Request), (enqueue s r).mode = s.mode) ∧
    (∀ (s : Scheduler) (g : Globals) (fuel : Nat) (x : Request × Scheduler × Globals),
      runStep s g fuel = some x → x.2.1.mode = s.mode) := by
  refine ⟨?_, ?_, ?_, ?_, ?_⟩
  · intro a d n m
    cases a <;> cases d <;> simp [disk_scheduler_create]
  · intro n m
    rfl
  · intro n m
    rfl
  · intro s r
    rfl
  · intro s g fuel x h
    simp only [runStep] at h
    split at h
    · exact absurd h (by simp)
    · split at h
      · exact absurd h (by simp)
      · simp only [Option.some.injEq] at h
        rw [← h]

/-- Witness for C8: device creation fails with the allocation succeeded —
the handle is null and the struct was freed; and a concrete FIFO
select-and-remove step leaves the mode unchanged. -/
theorem create_spec_witness :
    (disk_scheduler_create false true 8 Mode.FIFO).1 = none ∧
    ((⟨true, 5⟩, ⟨16, Mode.FIFO, ([] : List Request)⟩, initGlobals) :
        Request × Scheduler × Globals).2.1.mode = Mode.FIFO :=
  ⟨(create_spec.1 false true 8 Mode.FIFO).mpr (Or.inl rfl),
   create_spec.2.2.2.2 ⟨16, Mode.FIFO, [⟨true, 5⟩]⟩ initGlobals 1
     (⟨true, 5⟩, ⟨16, Mode.FIFO, []⟩, initGlobals) rfl⟩
